import Mathlib

/-!
Verification development for the website-analyzer repository.

The definitions below are a shallow embedding of `src/api/analyze.js`.
That file holds two variants of the analysis pipeline:

* a fetch-based handler whose fetch-failure branch (lines 60-89) answers
  with a fixed two-group fallback;
* the DOM-based pipeline (`analyzeWebsite`, `compileResults`, `handler`,
  lines 439-775) built on axios/cheerio, which the specification
  designates as the canonical analysis.

DOM queries performed through cheerio are modelled by a `Page` structure
holding the result of each query the code performs (title text, attribute
values, element counts); every check of `analyzeWebsite` is then
translated literally, in source order, as is `compileResults` and the
URL normalisation of the handler.
-/

/-- An advisory item `{ text, source }` as pushed by the checks. -/
structure Advisory where
  text : String
  source : String
deriving DecidableEq

/-- An output group as built by `compileResults`. -/
structure OutputGroup where
  category : String
  icon : String
  priority : String
  items : List Advisory
deriving DecidableEq

/-- The six category buckets of `analyzeWebsite` (source lines 440-447). -/
structure Buckets where
  seo : List Advisory
  performance : List Advisory
  wordpress : List Advisory
  ux : List Advisory
  accessibility : List Advisory
  content : List Advisory
deriving DecidableEq

/-- The JSON body written by `res.json` together with the HTTP status
(`res.json` without an explicit `res.status` call answers 200). -/
structure ApiResponse where
  status : Nat
  url : String
  improvements : List OutputGroup
deriving DecidableEq

/-- JS `haystack.includes(needle)` on strings (case-sensitive substring). -/
def strContains (haystack needle : String) : Bool :=
  go needle.data haystack.data
where
  go (needle : List Char) : List Char → Bool
  | [] => needle.isEmpty
  | c :: rest => needle.isPrefixOf (c :: rest) || go needle rest

/-- JS `s.startsWith(pre)`. -/
def strStartsWith (s pre : String) : Bool :=
  pre.data.isPrefixOf s.data

/-- JS `s.toLowerCase()` (ASCII case mapping, which is what the checked
substrings exercise). -/
def jsToLower (s : String) : String := ⟨s.data.map Char.toLower⟩

/-- JS `s.trim()`: strip leading and trailing whitespace. -/
def jsTrim (s : String) : String :=
  ⟨((s.data.dropWhile Char.isWhitespace).reverse.dropWhile Char.isWhitespace).reverse⟩

/-- The helper `safeText` of the DOM variant (lines 434-436):
`element ? element.trim() : ''` applied to the string cheerio returned. -/
def safeText (s : String) : String :=
  if s = "" then "" else jsTrim s

/-- JS truthiness test `!v` for an optional attribute value: `undefined`
(attribute absent) and the empty string are falsy. -/
def optFalsy : Option String → Bool
  | none => true
  | some s => s == ""

/-- Number of fields of JS `text.split(/\s+/)`: one more than the number
of maximal whitespace runs (auxiliary recursion; the flag records whether
the previous character was whitespace). -/
def wsRuns : List Char → Bool → Nat
  | [], _ => 0
  | c :: rest, inRun =>
    if c.isWhitespace then (if inRun then 0 else 1) + wsRuns rest true
    else wsRuns rest false

/-- Word count of the body text, `textContent.split(/\s+/).length`
(source line 594). -/
def wordCount (s : String) : Nat := wsRuns s.data false + 1

/-- The capture of `html.match(/wp-content\/themes\/([^\/]+)/)` (source
line 557): scan left to right for the literal followed by at least one
character other than a slash, and return that maximal run. -/
def themeCapture : List Char → Option String
  | [] => none
  | c :: rest =>
    if ("wp-content/themes/".data).isPrefixOf (c :: rest) then
      let cap := ((c :: rest).drop "wp-content/themes/".data.length).takeWhile
        (fun ch => ch != '/')
      if cap.isEmpty then themeCapture rest else some ⟨cap⟩
    else themeCapture rest

/-- Formatting of `(loadTime/1000).toFixed(1)` for a millisecond count,
modelled as rounding to the nearest tenth of a second (the floating-point
artifacts of `toFixed` do not arise for the integer inputs considered). -/
def fmtSeconds (ms : Nat) : String :=
  let t := (ms + 50) / 100
  toString (t / 10) ++ "." ++ toString (t % 10)

/-- The document as observed by the cheerio queries that `analyzeWebsite`
performs.  `titleQuery` is `none` when the document has no `title`
element and `some s` when `$(title).text()` is `s` (for an element
present with empty text this is `some ""`, which cheerio reports as the
empty string, indistinguishable to the code from an absent element).
`imgAlts` lists, per `img` element, its `alt` attribute (`none` when the
attribute is absent). -/
structure Page where
  html : String
  titleQuery : Option String
  metaDescription : Option String
  imgAlts : List (Option String)
  h1Count : Nat
  generator : Option String
  ogTitle : Option String
  ogDescription : Option String
  bodyText : String
  viewport : Option String
  ldJsonCount : Nat

/-- A document with nothing in it, used as base for concrete instances. -/
def blankPage : Page :=
  { html := "", titleQuery := none, metaDescription := none, imgAlts := [],
    h1Count := 0, generator := none, ogTitle := none, ogDescription := none,
    bodyText := "", viewport := none, ldJsonCount := 0 }

/-! Advisory constants, texts copied verbatim from `analyzeWebsite`. -/

def httpsAdv : Advisory :=
  ⟨"Site should use HTTPS for security and SEO benefits",
   "Google HTTPS ranking factor"⟩

def urlLongAdv : Advisory :=
  ⟨"URL is quite long - consider shortening for better SEO",
   "SEO best practices"⟩

def missingTitleAdv : Advisory :=
  ⟨"Missing page title - add a descriptive title tag",
   "Google SEO guidelines"⟩

def tooLongTitleAdv (n : Nat) : Advisory :=
  ⟨"Page title is " ++ toString n ++ " characters - should be 50-60 for optimal display",
   "Google SERP optimization"⟩

def shortTitleAdv : Advisory :=
  ⟨"Page title seems short - consider making it more descriptive",
   "SEO title optimization"⟩

def missingDescAdv : Advisory :=
  ⟨"Missing meta description - add one for better search results",
   "Google SEO best practices"⟩

def longDescAdv (n : Nat) : Advisory :=
  ⟨"Meta description is " ++ toString n ++ " characters - should be 150-160",
   "Google SERP guidelines"⟩

def noAltAdv (n : Nat) : Advisory :=
  ⟨"Found " ++ toString n ++ " images without alt text - add for accessibility",
   "WCAG 2.1 accessibility standards"⟩

def noH1Adv : Advisory :=
  ⟨"No H1 heading found - add one for better SEO structure",
   "SEO heading hierarchy"⟩

def multiH1Adv (n : Nat) : Advisory :=
  ⟨"Found " ++ toString n ++ " H1 headings - should typically have only one per page",
   "SEO best practices"⟩

def wpDetectedAdv : Advisory :=
  ⟨"WordPress site detected - great choice for content management",
   "WordPress site analysis"⟩

def themeAdv (nm : String) : Advisory :=
  ⟨"Using WordPress theme: " ++ nm ++ " - ensure it\x27s regularly updated",
   "WordPress security best practices"⟩

def jetpackAdv : Advisory :=
  ⟨"Consider installing Jetpack for enhanced performance and security",
   "WordPress.com recommendations"⟩

def optimizeImagesAdv : Advisory :=
  ⟨"Optimize images using WordPress.com built-in compression",
   "WordPress.com performance features"⟩

def loadTimeAdv (ms : Nat) : Advisory :=
  ⟨"Page loaded in " ++ fmtSeconds ms ++ " seconds - should be under 3 seconds",
   "Google Core Web Vitals"⟩

def ogAdv : Advisory :=
  ⟨"Missing Open Graph tags - add for better social media sharing",
   "Facebook Open Graph documentation"⟩

def limitedContentAdv : Advisory :=
  ⟨"Page has limited content - consider adding more valuable information",
   "Content quality guidelines"⟩

def contactAdv : Advisory :=
  ⟨"No obvious contact information found - make it easy for users to reach you",
   "User experience best practices"⟩

def viewportAdv : Advisory :=
  ⟨"Missing viewport meta tag - important for mobile responsiveness",
   "Google Mobile-First indexing"⟩

def schemaAdv : Advisory :=
  ⟨"No structured data found - consider adding schema markup",
   "Google structured data guidelines"⟩

def genericPerfAdv : Advisory :=
  ⟨"Consider implementing image optimization and caching for better performance",
   "Web performance best practices"⟩

def genericUxAdv : Advisory :=
  ⟨"Add clear call-to-action buttons to guide user behavior",
   "Conversion optimization guidelines"⟩

/-- The migration advisory of the regex-only variant (source lines
328-333); the DOM-based `analyzeWebsite` never emits it. -/
def migrationAdv : Advisory :=
  ⟨"Consider migrating to WordPress.com for better content management",
   "Platform recommendation"⟩

/-! The checks of `analyzeWebsite`, bucket by bucket, in source order. -/

/-- Title advisories (source lines 482-498): `title` is
`safeText($(title).text())`; `!title` selects the missing-title branch,
otherwise the two length checks are an if/else-if chain. -/
def titleAdvisories (p : Page) : List Advisory :=
  let title := safeText (p.titleQuery.getD "")
  if title = "" then [missingTitleAdv]
  else if title.length > 60 then [tooLongTitleAdv title.length]
  else if title.length < 30 then [shortTitleAdv]
  else []

/-- Meta description advisories (source lines 501-512). -/
def metaDescAdvisories (p : Page) : List Advisory :=
  match p.metaDescription with
  | none => [missingDescAdv]
  | some s =>
    if s = "" then [missingDescAdv]
    else if s.length > 160 then [longDescAdv s.length]
    else []

/-- Heading structure advisories (source lines 531-542). -/
def h1Advisories (p : Page) : List Advisory :=
  if p.h1Count = 0 then [noH1Adv]
  else if p.h1Count > 1 then [multiH1Adv p.h1Count]
  else []

/-- Open Graph advisory (source lines 583-590): emitted when either meta
is absent or empty. -/
def ogAdvisories (p : Page) : List Advisory :=
  if optFalsy p.ogTitle = true || optFalsy p.ogDescription = true then [ogAdv] else []

/-- Structured-data advisory (source lines 623-628). -/
def schemaAdvisories (p : Page) : List Advisory :=
  if strContains p.html "schema.org" = false && p.ldJsonCount == 0 then [schemaAdv] else []

/-- The SEO bucket: concatenation of all pushes onto `results.seo`, in
source order (lines 466, 474, 482-498, 501-512, 531-542, 583-590,
623-628). -/
def seoBucket (url : String) (p : Page) : List Advisory :=
  (if strStartsWith url "https://" = false then [httpsAdv] else [])
  ++ (if url.length > 60 then [urlLongAdv] else [])
  ++ titleAdvisories p
  ++ metaDescAdvisories p
  ++ h1Advisories p
  ++ ogAdvisories p
  ++ schemaAdvisories p

/-- WordPress detection (source lines 545-547). -/
def isWordPress (p : Page) : Bool :=
  strContains p.html "wp-content" || strContains p.html "wordpress" ||
    (match p.generator with
     | some s => strContains s "WordPress"
     | none => false)

/-- Theme advisory (source lines 556-564). -/
def themeAdvisories (p : Page) : List Advisory :=
  if strContains p.html "wp-content/themes/" = true then
    match themeCapture p.html.data with
    | some nm => [themeAdv nm]
    | none => []
  else []

/-- The wordpress bucket: all pushes onto `results.wordpress` in source
order (detected 550, theme 556-564, Jetpack 566-571, image compression
631-636).  The DOM variant has no else-branch for undetected sites. -/
def wordpressBucket (p : Page) : List Advisory :=
  if isWordPress p = true then
    [wpDetectedAdv] ++ themeAdvisories p
      ++ (if strContains p.html "jetpack" = false then [jetpackAdv] else [])
      ++ [optimizeImagesAdv]
  else []

/-- The performance bucket: specific check (lines 575-580) and the
bucket-empty fallback (lines 639-644). -/
def perfBucket (loadTime : Nat) : List Advisory :=
  let specific := if loadTime > 3000 then [loadTimeAdv loadTime] else []
  if specific.length = 0 then [genericPerfAdv] else specific

/-- The contact-information check condition (source lines 604-606). -/
def contactMissing (p : Page) : Bool :=
  !(strContains (jsToLower p.html) "contact")
    && !(strContains (jsToLower p.html) "email")
    && !(strContains (jsToLower p.html) "@")

/-- The ux bucket: contact check (603-611), viewport check (613-620),
then the bucket-empty fallback (646-651). -/
def uxBucket (p : Page) : List Advisory :=
  let specific :=
    (if contactMissing p = true then [contactAdv] else [])
    ++ (if optFalsy p.viewport = true then [viewportAdv] else [])
  if specific.length = 0 then [genericUxAdv] else specific

/-- The content bucket (source lines 593-601). -/
def contentBucket (p : Page) : List Advisory :=
  if wordCount p.bodyText < 300 then [limitedContentAdv] else []

/-- Number of `img` elements whose `alt` attribute is falsy, i.e. absent
or the empty string (source lines 515-521: `!$(img).attr(\x27alt\x27)`). -/
def countNoAlt (alts : List (Option String)) : Nat :=
  alts.countP optFalsy

/-- The accessibility bucket (source lines 523-528). -/
def accessibilityBucket (p : Page) : List Advisory :=
  if countNoAlt p.imgAlts > 0 then [noAltAdv (countNoAlt p.imgAlts)] else []

/-- The six buckets produced by the success path of `analyzeWebsite`
(source lines 462-651) for a fetched document `p`, the analyzed `url`
and the measured `loadTime`. -/
def analyzeChecks (url : String) (p : Page) (loadTime : Nat) : Buckets :=
  { seo := seoBucket url p
    performance := perfBucket loadTime
    wordpress := wordpressBucket p
    ux := uxBucket p
    accessibility := accessibilityBucket p
    content := contentBucket p }

/-- `compileResults` (source lines 672-730): the if-chain appending one
group per non-empty bucket, in the fixed source order. -/
def compileResults (b : Buckets) : List OutputGroup :=
  (if b.seo.length > 0 then
    [{ category := "SEO Optimization", icon := "🔍", priority := "high", items := b.seo }]
   else [])
  ++ (if b.wordpress.length > 0 then
    [{ category := "WordPress.com Specific", icon := "⚡", priority := "high", items := b.wordpress }]
   else [])
  ++ (if b.performance.length > 0 then
    [{ category := "Performance", icon := "🚀", priority := "medium", items := b.performance }]
   else [])
  ++ (if b.ux.length > 0 then
    [{ category := "User Experience", icon := "👤", priority := "medium", items := b.ux }]
   else [])
  ++ (if b.content.length > 0 then
    [{ category := "Content & Structure", icon := "✍️", priority := "medium", items := b.content }]
   else [])
  ++ (if b.accessibility.length > 0 then
    [{ category := "Accessibility", icon := "♿", priority := "low", items := b.accessibility }]
   else [])

/-- The presenter table of the specification (section 4.3), written out
as the spec states it: all six groups in table order, one per bucket,
with the fixed label, icon and priority.  Used to compare the spec's
formulation with `compileResults`. -/
def specGroupTable (b : Buckets) : List OutputGroup :=
  [ { category := "SEO Optimization", icon := "🔍", priority := "high", items := b.seo },
    { category := "WordPress.com Specific", icon := "⚡", priority := "high", items := b.wordpress },
    { category := "Performance", icon := "🚀", priority := "medium", items := b.performance },
    { category := "User Experience", icon := "👤", priority := "medium", items := b.ux },
    { category := "Content & Structure", icon := "✍️", priority := "medium", items := b.content },
    { category := "Accessibility", icon := "♿", priority := "low", items := b.accessibility } ]

/-- URL normalisation of the handler (source lines 756-759). -/
def normalizeUrl (u : String) : String :=
  if !(strStartsWith u "http://") && !(strStartsWith u "https://") then
    "https://" ++ u
  else u

/-- The success response of the DOM-based handler (source lines 763-769):
normalise, analyze, compile, answer 200 with the normalised URL echoed. -/
def handlerSuccess (u : String) (p : Page) (loadTime : Nat) : ApiResponse :=
  { status := 200, url := normalizeUrl u,
    improvements := compileResults (analyzeChecks (normalizeUrl u) p loadTime) }

/-- The fixed fallback of the fetch-based handler (source lines 64-83). -/
def fallbackResults : List OutputGroup :=
  [ { category := "Site Access", icon := "⚠️", priority := "high",
      items :=
        [ ⟨"Unable to fully analyze site - may have access restrictions", "Connection analysis"⟩,
          ⟨"Ensure site is publicly accessible and not blocking automated requests", "Accessibility check"⟩ ] },
    { category := "WordPress.com Recommendations", icon := "⚡", priority := "high",
      items :=
        [ ⟨"Consider WordPress.com hosting for reliable performance and security", "WordPress.com benefits"⟩,
          ⟨"WordPress.com sites are optimized for speed and SEO out of the box", "Platform optimization"⟩ ] } ]

/-- The response of the fetch-based handler when the page fetch fails
with a timeout, transport error or non-success status (source lines
60-89): `res.json` answers 200 with the fallback groups. -/
def fetchFailureResponse (targetUrl : String) : ApiResponse :=
  { status := 200, url := targetUrl, improvements := fallbackResults }

/-- The category labels of the normal analysis groups. -/
def normalCategories : List String :=
  ["SEO Optimization", "WordPress.com Specific", "Performance",
   "User Experience", "Content & Structure", "Accessibility"]

/-- Per-tag check of the regex-only variant (source lines 150-153): an
`img` tag string is counted as lacking alt text when it does not contain
the substring `alt=`. -/
def regexImgLacksAlt (tag : String) : Bool :=
  !(strContains tag "alt=")

/-! Concrete documents used in counterexamples and witnesses. -/

/-- A document whose lowered HTML contains `contact` and which has a
non-empty viewport meta, so neither ux check fires. -/
def pageContactViewport : Page :=
  { blankPage with html := "contact", viewport := some "width=device-width" }

/-- A document containing `wp-content` but not `jetpack`. -/
def pageWpContent : Page := { blankPage with html := "wp-content" }

/-- A document with a `title` element whose text is empty (cheerio
reports `""` for it, exactly as for an absent element). -/
def pageEmptyTitle : Page := { blankPage with titleQuery := some "" }

/-- A document whose title text is 61 characters long. -/
def pageTitle61 : Page :=
  { blankPage with titleQuery := some (String.mk (List.replicate 61 'a')) }

/-- A document whose title text is 5 characters long. -/
def pageTitleShort : Page := { blankPage with titleQuery := some "Hello" }

/-- A document with two `img` elements: one without an `alt` attribute
and one with `alt=""`. -/
def pageTwoImgs : Page := { blankPage with imgAlts := [none, some ""] }

/-- A document whose only `img` element carries `alt=""`. -/
def pageOneEmptyAlt : Page := { blankPage with imgAlts := [some ""] }

/-! Helper lemmas. -/

lemma adv_ne_of_text {a b : Advisory} (h : a.text ≠ b.text) : a ≠ b :=
  fun he => h (congrArg Advisory.text he)

lemma text_take_param (pre mid suf : String) :
    (pre ++ mid ++ suf).data.take pre.data.length = pre.data := by
  obtain ⟨a⟩ := pre; obtain ⟨b⟩ := mid; obtain ⟨c⟩ := suf
  show ((a ++ b) ++ c).take a.length = a
  rw [List.append_assoc]
  exact List.take_left a (b ++ c)

lemma param_ne_const (pre mid suf c : String)
    (h : c.data.take pre.data.length ≠ pre.data) : pre ++ mid ++ suf ≠ c := by
  intro he
  exact h (by rw [← he, text_take_param])

lemma param_ne_param (pre₁ mid₁ suf₁ pre₂ mid₂ suf₂ : String)
    (hlen : pre₁.data.length ≤ pre₂.data.length)
    (h : pre₂.data.take pre₁.data.length ≠ pre₁.data) :
    pre₁ ++ mid₁ ++ suf₁ ≠ pre₂ ++ mid₂ ++ suf₂ := by
  intro he
  apply h
  have h1 : (pre₁ ++ mid₁ ++ suf₁).data.take pre₁.data.length = pre₁.data :=
    text_take_param pre₁ mid₁ suf₁
  have h2 : (pre₂ ++ mid₂ ++ suf₂).data.take pre₁.data.length
      = pre₂.data.take pre₁.data.length := by
    obtain ⟨a⟩ := pre₂; obtain ⟨b⟩ := mid₂; obtain ⟨c⟩ := suf₂
    show ((a ++ b) ++ c).take _ = a.take _
    rw [List.append_assoc]
    exact List.take_append_of_le_length hlen
  rw [he, h2] at h1
  exact h1

lemma eq_of_mem_ite_singleton {x a : Advisory} {c : Prop} [Decidable c]
    (h : x ∈ if c then [a] else []) : x = a := by
  split at h <;> simp_all

lemma compileResults_eq_filter (b : Buckets) :
    compileResults b = (specGroupTable b).filter (fun g => !g.items.isEmpty) := by
  obtain ⟨s, pe, w, u, a, c⟩ := b
  cases s <;> cases pe <;> cases w <;> cases u <;> cases a <;> cases c <;>
    simp [compileResults, specGroupTable, List.filter]

lemma items_ne_nil_of_mem_compile {b : Buckets} {g : OutputGroup}
    (h : g ∈ compileResults b) : g.items ≠ [] := by
  rw [compileResults_eq_filter] at h
  have := List.of_mem_filter h
  simpa [List.isEmpty_iff] using this

/-! The claims. -/

/-- C1: for every request whose page fetch fails (timeout, transport
error or non-success HTTP status), the fetch-based handler still answers
HTTP 200 and its improvements list is exactly the two groups
"Site Access" and "WordPress.com Recommendations", both priority high,
with none of the normal analysis groups present. -/
theorem c1_fetch_failure_fallback (targetUrl : String) :
    (fetchFailureResponse targetUrl).status = 200
    ∧ (fetchFailureResponse targetUrl).improvements.map OutputGroup.category
        = ["Site Access", "WordPress.com Recommendations"]
    ∧ ((fetchFailureResponse targetUrl).improvements.all
        fun g => g.priority == "high") = true
    ∧ ((fetchFailureResponse targetUrl).improvements.all
        fun g => !(normalCategories.contains g.category)) = true :=
  ⟨rfl, rfl, rfl, rfl⟩

/-- C6: the presenter emits output groups in the fixed table order with
the fixed label, icon and priority per bucket, omits every empty bucket,
and each emitted group carries its bucket's items in insertion order:
`compileResults` equals the spec's table filtered to non-empty groups. -/
theorem c6_presenter_table (b : Buckets) :
    compileResults b = (specGroupTable b).filter (fun g => !g.items.isEmpty) :=
  compileResults_eq_filter b

/-- C7: an input URL starting with neither `http://` nor `https://` is
reported back as `https://` prepended to it; a URL with either prefix is
reported back unchanged. -/
theorem c7_url_normalization (u : String) (p : Page) (lt : Nat) :
    ((strStartsWith u "http://" = false ∧ strStartsWith u "https://" = false) →
      (handlerSuccess u p lt).url = "https://" ++ u)
    ∧ ((strStartsWith u "http://" = true ∨ strStartsWith u "https://" = true) →
      (handlerSuccess u p lt).url = u) := by
  constructor
  · rintro ⟨h1, h2⟩
    simp [handlerSuccess, normalizeUrl, h1, h2]
  · rintro (h | h) <;> simp [handlerSuccess, normalizeUrl, h]

/-- Witness for C7 at `example.com` and `https://example.com`. -/
theorem c7_witness :
    (handlerSuccess "example.com" blankPage 0).url = "https://" ++ "example.com"
    ∧ (handlerSuccess "https://example.com" blankPage 0).url = "https://example.com" :=
  ⟨(c7_url_normalization "example.com" blankPage 0).1 ⟨by decide, by decide⟩,
   (c7_url_normalization "https://example.com" blankPage 0).2 (Or.inr (by decide))⟩

/-- C8: the analysis pipeline is deterministic: two runs on the same
document, the same URL and the same load time produce identical
improvements output. -/
theorem c8_deterministic (p₁ p₂ : Page) (u₁ u₂ : String) (t₁ t₂ : Nat)
    (hp : p₁ = p₂) (hu : u₁ = u₂) (ht : t₁ = t₂) :
    (handlerSuccess u₁ p₁ t₁).improvements
      = (handlerSuccess u₂ p₂ t₂).improvements := by
  subst hp; subst hu; subst ht; rfl

/-- Witness for C8: two identical runs on a concrete document. -/
theorem c8_witness :
    (handlerSuccess "example.com" blankPage 1200).improvements
      = (handlerSuccess "example.com" blankPage 1200).improvements :=
  c8_deterministic blankPage blankPage "example.com" "example.com" 1200 1200
    rfl rfl rfl

/-- C2 counterexample: the empty document is not detected as WordPress
(no `wp-content`, no `wordpress`, no generator meta), yet its wordpress
bucket is empty rather than holding the single migration advisory the
claim requires. -/
theorem c2_counterexample :
    strContains blankPage.html "wp-content" = false
    ∧ strContains blankPage.html "wordpress" = false
    ∧ blankPage.generator = none
    ∧ wordpressBucket blankPage = []
    ∧ wordpressBucket blankPage ≠ [migrationAdv] := by decide

/-- C2 amended: for every document not detected as WordPress, the
wordpress bucket of the DOM-based analysis is empty — no WordPress
advisory at all, and in particular no migration advisory (that advisory
exists only in the regex-only variant). -/
theorem c2_nonwp_bucket_empty (p : Page) (h : isWordPress p = false) :
    wordpressBucket p = [] := by
  simp [wordpressBucket, h]

/-- Witness for the amended C2 at the empty document. -/
theorem c2_witness : wordpressBucket blankPage = [] :=
  c2_nonwp_bucket_empty blankPage (by decide)

/-- C4: a document containing `wp-content` but not `jetpack` gets the
"WordPress site detected" advisory and the "install Jetpack" advisory,
detection strictly before Jetpack, and also the "optimize images via
built-in compression" advisory. -/
theorem c4_wp_without_jetpack (p : Page)
    (h1 : strContains p.html "wp-content" = true)
    (h2 : strContains p.html "jetpack" = false) :
    wpDetectedAdv ∈ wordpressBucket p
    ∧ jetpackAdv ∈ wordpressBucket p
    ∧ optimizeImagesAdv ∈ wordpressBucket p
    ∧ ∃ i j : Nat, i < j ∧ (wordpressBucket p)[i]? = some wpDetectedAdv
        ∧ (wordpressBucket p)[j]? = some jetpackAdv := by
  have hwp : isWordPress p = true := by simp [isWordPress, h1]
  have hb : wordpressBucket p
      = wpDetectedAdv :: (themeAdvisories p ++ [jetpackAdv, optimizeImagesAdv]) := by
    simp [wordpressBucket, hwp, h2]
  rw [hb]
  refine ⟨by simp, by simp, by simp, 0, (themeAdvisories p).length + 1, by omega, by simp, ?_⟩
  have h3 : (themeAdvisories p ++ [jetpackAdv, optimizeImagesAdv])[(themeAdvisories p).length]?
      = some jetpackAdv := by
    rw [List.getElem?_append_right (le_refl _)]
    simp
  simpa using h3

/-- Witness for C4 at a document whose HTML is just `wp-content`. -/
theorem c4_witness :
    wpDetectedAdv ∈ wordpressBucket pageWpContent
    ∧ jetpackAdv ∈ wordpressBucket pageWpContent
    ∧ optimizeImagesAdv ∈ wordpressBucket pageWpContent
    ∧ ∃ i j : Nat, i < j ∧ (wordpressBucket pageWpContent)[i]? = some wpDetectedAdv
        ∧ (wordpressBucket pageWpContent)[j]? = some jetpackAdv :=
  c4_wp_without_jetpack pageWpContent (by decide) (by decide)

lemma genericPerf_ne_load (t : Nat) : genericPerfAdv ≠ loadTimeAdv t := by
  apply adv_ne_of_text
  exact (param_ne_const "Page loaded in " (fmtSeconds t)
    " seconds - should be under 3 seconds" _ (by decide)).symm

/-- C5: the generic performance advisory is in the performance bucket
exactly when the load-time check did not fire, the generic UX advisory
is in the ux bucket exactly when neither the contact check nor the
viewport check fired, and no emitted output group is empty. -/
theorem c5_generic_fallbacks (url : String) (p : Page) (lt : Nat) :
    (genericPerfAdv ∈ (analyzeChecks url p lt).performance ↔ lt ≤ 3000)
    ∧ (genericUxAdv ∈ (analyzeChecks url p lt).ux
        ↔ (contactMissing p = false ∧ optFalsy p.viewport = false))
    ∧ (∀ g ∈ compileResults (analyzeChecks url p lt), g.items ≠ []) := by
  refine ⟨?_, ?_, fun g hg => items_ne_nil_of_mem_compile hg⟩
  · show genericPerfAdv ∈ perfBucket lt ↔ lt ≤ 3000
    by_cases h : lt > 3000
    · have hb : perfBucket lt = [loadTimeAdv lt] := by simp [perfBucket, h]
      rw [hb]
      simp [genericPerf_ne_load lt]
      omega
    · have hb : perfBucket lt = [genericPerfAdv] := by simp [perfBucket, h]
      rw [hb]
      simp
      omega
  · show genericUxAdv ∈ uxBucket p ↔ _
    have hgc : genericUxAdv ≠ contactAdv := by decide
    have hgv : genericUxAdv ≠ viewportAdv := by decide
    by_cases hc : contactMissing p = true <;> by_cases hv : optFalsy p.viewport = true <;>
      simp [uxBucket, hc, hv, hgc, hgv]

/-- Witness for C5: a fast load puts the generic performance advisory in
the bucket, and a document passing both ux checks gets the generic UX
advisory. -/
theorem c5_witness :
    genericPerfAdv ∈ (analyzeChecks "https://x" blankPage 1200).performance
    ∧ genericUxAdv ∈ (analyzeChecks "https://x" pageContactViewport 1200).ux :=
  ⟨(c5_generic_fallbacks "https://x" blankPage 1200).1.mpr (by decide),
   (c5_generic_fallbacks "https://x" pageContactViewport 1200).2.1.mpr ⟨by decide, by decide⟩⟩

lemma not_mem_metaDesc {x : Advisory} (p : Page)
    (h1 : x ≠ missingDescAdv) (h2 : ∀ m, x ≠ longDescAdv m) :
    x ∉ metaDescAdvisories p := by
  unfold metaDescAdvisories
  cases p.metaDescription with
  | none => simp [h1]
  | some s =>
    dsimp only
    split_ifs <;> simp [h1, h2 s.length]

lemma not_mem_h1Advisories {x : Advisory} (p : Page)
    (h1 : x ≠ noH1Adv) (h2 : ∀ m, x ≠ multiH1Adv m) :
    x ∉ h1Advisories p := by
  unfold h1Advisories
  split_ifs <;> simp [h1, h2 p.h1Count]

lemma not_mem_og {x : Advisory} (p : Page) (h : x ≠ ogAdv) :
    x ∉ ogAdvisories p := by
  unfold ogAdvisories
  split_ifs <;> simp [h]

lemma not_mem_schema {x : Advisory} (p : Page) (h : x ≠ schemaAdv) :
    x ∉ schemaAdvisories p := by
  unfold schemaAdvisories
  split_ifs <;> simp [h]

lemma mem_seo_of_title {x : Advisory} (url : String) {p : Page}
    (h : x ∈ titleAdvisories p) : x ∈ seoBucket url p := by
  unfold seoBucket
  simp only [List.mem_append]
  tauto

lemma not_mem_seo {x : Advisory} (url : String) (p : Page)
    (h1 : x ≠ httpsAdv) (h2 : x ≠ urlLongAdv) (h3 : x ∉ titleAdvisories p)
    (h4 : x ≠ missingDescAdv) (h5 : ∀ m, x ≠ longDescAdv m)
    (h6 : x ≠ noH1Adv) (h7 : ∀ m, x ≠ multiH1Adv m)
    (h8 : x ≠ ogAdv) (h9 : x ≠ schemaAdv) : x ∉ seoBucket url p := by
  unfold seoBucket
  intro hx
  simp only [List.mem_append] at hx
  rcases hx with ((((((hx | hx) | hx) | hx) | hx) | hx) | hx)
  · exact h1 (eq_of_mem_ite_singleton hx)
  · exact h2 (eq_of_mem_ite_singleton hx)
  · exact h3 hx
  · exact not_mem_metaDesc p h4 h5 hx
  · exact not_mem_h1Advisories p h6 h7 hx
  · exact not_mem_og p h8 hx
  · exact not_mem_schema p h9 hx

lemma shortTitle_not_mem_seo (url : String) (p : Page)
    (h3 : shortTitleAdv ∉ titleAdvisories p) : shortTitleAdv ∉ seoBucket url p := by
  refine not_mem_seo url p (by decide) (by decide) h3 (by decide) ?_ (by decide) ?_ (by decide) (by decide)
  · intro m
    exact adv_ne_of_text (param_ne_const "Meta description is " (toString m)
      " characters - should be 150-160" _ (by decide)).symm
  · intro m
    exact adv_ne_of_text (param_ne_const "Found " (toString m)
      " H1 headings - should typically have only one per page" _ (by decide)).symm

lemma missingTitle_not_mem_seo (url : String) (p : Page)
    (h3 : missingTitleAdv ∉ titleAdvisories p) : missingTitleAdv ∉ seoBucket url p := by
  refine not_mem_seo url p (by decide) (by decide) h3 (by decide) ?_ (by decide) ?_ (by decide) (by decide)
  · intro m
    exact adv_ne_of_text (param_ne_const "Meta description is " (toString m)
      " characters - should be 150-160" _ (by decide)).symm
  · intro m
    exact adv_ne_of_text (param_ne_const "Found " (toString m)
      " H1 headings - should typically have only one per page" _ (by decide)).symm

lemma tooLong_not_mem_seo (n : Nat) (url : String) (p : Page)
    (h3 : tooLongTitleAdv n ∉ titleAdvisories p) : tooLongTitleAdv n ∉ seoBucket url p := by
  refine not_mem_seo url p ?_ ?_ h3 ?_ ?_ ?_ ?_ ?_ ?_
  · exact adv_ne_of_text (param_ne_const "Page title is " (toString n)
      " characters - should be 50-60 for optimal display" _ (by decide))
  · exact adv_ne_of_text (param_ne_const "Page title is " (toString n)
      " characters - should be 50-60 for optimal display" _ (by decide))
  · exact adv_ne_of_text (param_ne_const "Page title is " (toString n)
      " characters - should be 50-60 for optimal display" _ (by decide))
  · intro m
    exact adv_ne_of_text (param_ne_param "Page title is " (toString n)
      " characters - should be 50-60 for optimal display"
      "Meta description is " (toString m) " characters - should be 150-160"
      (by decide) (by decide))
  · exact adv_ne_of_text (param_ne_const "Page title is " (toString n)
      " characters - should be 50-60 for optimal display" _ (by decide))
  · intro m
    exact adv_ne_of_text (param_ne_param "Found " (toString m)
      " H1 headings - should typically have only one per page"
      "Page title is " (toString n)
      " characters - should be 50-60 for optimal display"
      (by decide) (by decide)).symm
  · exact adv_ne_of_text (param_ne_const "Page title is " (toString n)
      " characters - should be 50-60 for optimal display" _ (by decide))
  · exact adv_ne_of_text (param_ne_const "Page title is " (toString n)
      " characters - should be 50-60 for optimal display" _ (by decide))

lemma tooLong_ne_missing (n : Nat) : tooLongTitleAdv n ≠ missingTitleAdv :=
  adv_ne_of_text (param_ne_const "Page title is " (toString n)
    " characters - should be 50-60 for optimal display" _ (by decide))

/-- C3 counterexample: a document with a present `title` element whose
text is empty has trimmed title length 0 (below 30), yet the analysis
emits the missing-title advisory and not the too-short advisory, because
`!title` treats the empty string like an absent title. -/
theorem c3_counterexample :
    pageEmptyTitle.titleQuery.isSome = true
    ∧ (safeText (pageEmptyTitle.titleQuery.getD "")).length < 30
    ∧ shortTitleAdv ∉ seoBucket "https://x" pageEmptyTitle
    ∧ missingTitleAdv ∈ seoBucket "https://x" pageEmptyTitle := by decide

/-- C3 amended: at most one of the three title advisories fires; a title
text that trims to empty (in particular an absent `title` element, which
cheerio reports as `""`) yields the missing-title advisory and never a
length-based one; trimmed length 60 yields neither length advisory;
length 61 yields the too-long advisory with 61 interpolated; a nonzero
trimmed length below 30 yields the too-short advisory. -/
theorem c3_title_advisories (url : String) (p : Page) :
    (titleAdvisories p).length ≤ 1
    ∧ (safeText (p.titleQuery.getD "") = "" →
        missingTitleAdv ∈ seoBucket url p
        ∧ shortTitleAdv ∉ seoBucket url p
        ∧ ∀ n, tooLongTitleAdv n ∉ seoBucket url p)
    ∧ ((safeText (p.titleQuery.getD "")).length = 60 →
        shortTitleAdv ∉ seoBucket url p
        ∧ ∀ n, tooLongTitleAdv n ∉ seoBucket url p)
    ∧ ((safeText (p.titleQuery.getD "")).length = 61 →
        tooLongTitleAdv 61 ∈ seoBucket url p)
    ∧ (1 ≤ (safeText (p.titleQuery.getD "")).length →
        (safeText (p.titleQuery.getD "")).length < 30 →
        shortTitleAdv ∈ seoBucket url p) := by
  refine ⟨?_, ?_, ?_, ?_, ?_⟩
  · simp only [titleAdvisories]
    split_ifs <;> simp
  · intro ht
    have hta : titleAdvisories p = [missingTitleAdv] := by
      unfold titleAdvisories
      simp [ht]
    refine ⟨mem_seo_of_title url (by simp [hta]), ?_, fun n => ?_⟩
    · refine shortTitle_not_mem_seo url p ?_
      simp [hta]
      decide
    · refine tooLong_not_mem_seo n url p ?_
      simp [hta, tooLong_ne_missing n]
  · intro hlen
    have hne : safeText (p.titleQuery.getD "") ≠ "" := by
      intro he
      rw [he] at hlen
      simp at hlen
    have hta : titleAdvisories p = [] := by
      unfold titleAdvisories
      simp [hne, hlen]
    refine ⟨shortTitle_not_mem_seo url p (by simp [hta]),
      fun n => tooLong_not_mem_seo n url p (by simp [hta])⟩
  · intro hlen
    have hne : safeText (p.titleQuery.getD "") ≠ "" := by
      intro he
      rw [he] at hlen
      simp at hlen
    have hta : titleAdvisories p = [tooLongTitleAdv 61] := by
      unfold titleAdvisories
      simp [hne, hlen]
    exact mem_seo_of_title url (by simp [hta])
  · intro h1 h30
    have hne : safeText (p.titleQuery.getD "") ≠ "" := by
      intro he
      rw [he] at h1
      simp at h1
    have hta : titleAdvisories p = [shortTitleAdv] := by
      unfold titleAdvisories
      simp [hne, h30]
      omega
    exact mem_seo_of_title url (by simp [hta])

/-- Witness for the amended C3 at titles of length 61, 5 and at an
absent title. -/
theorem c3_witness :
    tooLongTitleAdv 61 ∈ seoBucket "https://x" pageTitle61
    ∧ shortTitleAdv ∈ seoBucket "https://x" pageTitleShort
    ∧ missingTitleAdv ∈ seoBucket "https://x" blankPage :=
  ⟨(c3_title_advisories "https://x" pageTitle61).2.2.2.1 (by decide),
   (c3_title_advisories "https://x" pageTitleShort).2.2.2.2 (by decide) (by decide),
   ((c3_title_advisories "https://x" blankPage).2.1 (by decide)).1⟩

/-- C9 counterexample: in a document with one `img` lacking the `alt`
attribute and one with `alt=""`, the number of images lacking an alt
attribute is 1, yet the accessibility advisory interpolates 2 (the code
counts falsy attribute values, so `alt=""` is included). -/
theorem c9_counterexample :
    (pageTwoImgs.imgAlts.countP fun a => a.isNone) = 1
    ∧ accessibilityBucket pageTwoImgs = [noAltAdv 2]
    ∧ noAltAdv 2 ≠ noAltAdv 1 := by decide

/-- C9 amended: a document with zero `img` elements yields an empty
accessibility bucket and no Accessibility output group; when the count
of `img` elements whose `alt` attribute is missing or empty is positive,
the bucket holds exactly one advisory with that count interpolated. -/
theorem c9_accessibility (url : String) (p : Page) (lt : Nat) :
    (p.imgAlts = [] →
      accessibilityBucket p = []
      ∧ ∀ g ∈ compileResults (analyzeChecks url p lt), g.category ≠ "Accessibility")
    ∧ (0 < countNoAlt p.imgAlts →
      accessibilityBucket p = [noAltAdv (countNoAlt p.imgAlts)]) := by
  constructor
  · intro hz
    have hb : accessibilityBucket p = [] := by
      simp [accessibilityBucket, countNoAlt, hz]
    refine ⟨hb, fun g hg => ?_⟩
    rw [compileResults_eq_filter] at hg
    have hmem := List.mem_of_mem_filter hg
    have hpred := List.of_mem_filter hg
    simp only [specGroupTable, List.mem_cons, List.not_mem_nil, or_false] at hmem
    rcases hmem with h|h|h|h|h|h
    · subst h; simp
    · subst h; simp
    · subst h; simp
    · subst h; simp
    · subst h; simp
    · subst h
      simp [analyzeChecks, hb] at hpred
  · intro hpos
    simp [accessibilityBucket, hpos]

/-- Witness for the amended C9 at a document without images and at one
whose single image has an empty `alt`. -/
theorem c9_witness :
    accessibilityBucket blankPage = []
    ∧ accessibilityBucket pageOneEmptyAlt = [noAltAdv (countNoAlt pageOneEmptyAlt.imgAlts)] :=
  ⟨((c9_accessibility "https://x" blankPage 0).1 rfl).1,
   (c9_accessibility "https://x" pageOneEmptyAlt 0).2 (by decide)⟩

/-- C10: the DOM-based check counts an `img` with `alt=""` as lacking
alt text (it tests falsiness of the attribute value), the advisory count
includes it, and the regex-only variant, which tests for the substring
`alt=`, does not count such a tag. -/
theorem c10_empty_alt_counted :
    (∀ pre post : List (Option String),
      countNoAlt (pre ++ some "" :: post) = countNoAlt (pre ++ post) + 1)
    ∧ accessibilityBucket pageOneEmptyAlt = [noAltAdv 1]
    ∧ regexImgLacksAlt "<img alt=\"\">" = false := by
  refine ⟨?_, by decide, by decide⟩
  intro pre post
  simp [countNoAlt, List.countP_append, List.countP_cons, optFalsy]
  omega
